import Mathlib

/-!
Verification development for the n8n_dev_mcp diagnosis engine.

This file gives a shallow embedding of the pure algorithmic core of the
repository:

* `app/services/debugger.py`: `_extract_error_details` (the Trace Diagnoser)
  and `_generate_recommendation`;
* `app/services/docker.py`: `ERROR_PATTERNS`, `_analyze_log_errors`
  (the Line Classifier), and the pure per-container logic of
  `diagnose_container_errors` and `analyze_all_container_errors`.

Python dynamic values appearing in execution traces are modelled by the
inductive `JVal`; Python operations that can raise (`.get` on a non-dict,
indexing a string with a string key, iterating `None`, ...) are modelled in
the `Except String` monad, with the error string naming the Python exception.
External collaborators (Docker SDK, HTTP client) are out of scope: the text
of a container's logs and the container's state attributes are inputs to the
embedded functions, exactly as the source consumes them after fetching.
-/

/-- Single-quote character, used to build Python message strings. -/
def pySQ : String := String.singleton (Char.ofNat 39)

/-- Python `str.lower()` on a character (ASCII, which covers every pattern
literal in the source). -/
def pyLowerChar (c : Char) : Char := c.toLower

/-- Python whitespace characters recognised by `str.strip()`. -/
def pyIsSpace (c : Char) : Bool :=
  c == ' ' || c == '\t' || c == '\n' || c == '\r' || c == '\x0b' || c == '\x0c'

/-- Python `str.strip()`: drop whitespace from both ends. -/
def pyStrip (l : List Char) : List Char :=
  ((l.dropWhile pyIsSpace).reverse.dropWhile pyIsSpace).reverse

/-- Does `pat` occur at the head of `l`?  (Used to model substring search.) -/
def litAt : List Char → List Char → Bool
  | [], _ => true
  | _ :: _, [] => false
  | p :: ps, c :: cs => p == c && litAt ps cs

/-- First occurrence of `pat` in `l`: returns the rest of `l` after that
occurrence, or `none`.  Models the scan performed by `re.search` for a
literal, and Python's `in` operator on strings. -/
def findAfter (pat : List Char) : List Char → Option (List Char)
  | [] => if litAt pat [] then some ([].drop pat.length) else none
  | c :: cs =>
    if litAt pat (c :: cs) then some ((c :: cs).drop pat.length)
    else findAfter pat cs

/-- Python `pat in s` (case-sensitive substring containment). -/
def containsLit (l pat : List Char) : Bool := (findAfter pat l).isSome

/-- Python `pat in s` on `String`s. -/
def containsStr (s pat : String) : Bool := containsLit s.toList pat.toList

/-- Python `s.lower()` of a list of characters. -/
def lowerChars (l : List Char) : List Char := l.map pyLowerChar

/-- Python `text.split(chr(10))`, accumulator-based. -/
def splitLinesAux (cur : List Char) : List Char → List (List Char)
  | [] => [cur.reverse]
  | c :: rest =>
    if c == '\n' then cur.reverse :: splitLinesAux [] rest
    else splitLinesAux (c :: cur) rest

/-- Python `logs.split(chr(10))`: the list of lines of a text. -/
def pyLines (logs : String) : List (List Char) := splitLinesAux [] logs.toList

/-- Python `enumerate(lines, n)`. -/
def enumLines (n : Nat) : List (List Char) → List (Nat × List Char)
  | [] => []
  | l :: ls => (n, l) :: enumLines (n + 1) ls

/-!  ## The Python value model for execution traces  -/

/-- Dynamic values occurring in a parsed n8n execution trace: JSON-like
nested data (`None`, strings, lists, dicts with string keys). -/
inductive JVal where
  | null : JVal
  | str : String → JVal
  | arr : List JVal → JVal
  | obj : List (String × JVal) → JVal
deriving Repr

/-- Python dict lookup (`d[k]` when present / `k in d`): first binding wins. -/
def jLookup (k : String) : List (String × JVal) → Option JVal
  | [] => none
  | (k2, v) :: fs => if k2 = k then some v else jLookup k fs

mutual
/-- Python `repr` of a trace value (as produced for `str(dict)` defaults in
the source).  Escape sequences inside strings are not modelled; no string in
this development contains a quote or backslash. -/
def pyRepr : JVal → String
  | .null => "None"
  | .str s => pySQ ++ s ++ pySQ
  | .arr xs => "[" ++ pyReprList xs ++ "]"
  | .obj fs => "\x7b" ++ pyReprFields fs ++ "\x7d"

def pyReprList : List JVal → String
  | [] => ""
  | [x] => pyRepr x
  | x :: xs => pyRepr x ++ ", " ++ pyReprList xs

def pyReprFields : List (String × JVal) → String
  | [] => ""
  | [(k, v)] => pySQ ++ k ++ pySQ ++ ": " ++ pyRepr v
  | (k, v) :: fs => pySQ ++ k ++ pySQ ++ ": " ++ pyRepr v ++ ", " ++ pyReprFields fs
end

/-- Python `str(v)`: identical to `repr` except on strings. -/
def pyStr : JVal → String
  | .str s => s
  | v => pyRepr v

/-- Python `v.get(k, default)`: only dicts have `.get`; any other receiver
raises `AttributeError`. -/
def jGet (v : JVal) (k : String) (dflt : JVal) : Except String JVal :=
  match v with
  | .obj fs =>
    match jLookup k fs with
    | some w => .ok w
    | none => .ok dflt
  | _ => .error "AttributeError: get"

/-- Python `k in v` for a string key `k`: key membership for dicts, substring
test for strings, element equality for lists; raises `TypeError` on `None`. -/
def jContains (v : JVal) (k : String) : Except String Bool :=
  match v with
  | .obj fs => .ok (jLookup k fs).isSome
  | .str s => .ok (containsStr s k)
  | .arr xs => .ok (xs.any fun x => match x with | .str s => s == k | _ => false)
  | .null => .error "TypeError: argument of type NoneType is not iterable"

/-- Python `v[k]` for a string key `k`: dict indexing; strings and lists
raise `TypeError` when indexed with a string, `None` is not subscriptable. -/
def jIndex (v : JVal) (k : String) : Except String JVal :=
  match v with
  | .obj fs =>
    match jLookup k fs with
    | some w => .ok w
    | none => .error "KeyError"
  | .str _ => .error "TypeError: string indices must be integers"
  | .arr _ => .error "TypeError: list indices must be integers"
  | .null => .error "TypeError: NoneType is not subscriptable"

/-- Python `v.items()`: dicts only. -/
def jItems (v : JVal) : Except String (List (String × JVal)) :=
  match v with
  | .obj fs => .ok fs
  | _ => .error "AttributeError: items"

/-- Python iteration `for x in v`: lists yield elements, strings yield
one-character strings, dicts yield their keys, `None` raises `TypeError`. -/
def jIter (v : JVal) : Except String (List JVal) :=
  match v with
  | .arr xs => .ok xs
  | .str s => .ok (s.toList.map fun c => JVal.str (String.singleton c))
  | .obj fs => .ok (fs.map fun p => JVal.str p.1)
  | .null => .error "TypeError: NoneType is not iterable"

/-!  ## `_extract_error_details` (app/services/debugger.py, lines 12-70)  -/

/-- The `error_info` dictionary built by `_extract_error_details`. -/
structure ErrorInfo where
  failed_node : JVal
  node_type : JVal
  error_type : JVal
  error_message : JVal
  stack_trace : JVal
  input_data : JVal
deriving Repr

/-- The initial sentinel values of `error_info` (debugger.py lines 17-24). -/
def defaultErrorInfo : ErrorInfo :=
  { failed_node := .str "Unknown"
    node_type := .str "Unknown"
    error_type := .str "Unknown"
    error_message := .str "No error details available"
    stack_trace := .null
    input_data := .null }

/-- The body of the inner loop of `_extract_error_details` (lines 47-68):
scan the run attempts of one step; at the first attempt carrying an
`error` key, overwrite the diagnosis and stop scanning this step's attempts
(the `break`).  The outer loop over steps continues in `processNodes`. -/
def processRuns (info : ErrorInfo) (node_name : String) :
    List JVal → Except String ErrorInfo
  | [] => .ok info
  | run :: rest => do
    let hasErr ← jContains run "error"
    if hasErr then do
      let node_error ← jIndex run "error"
      let info := { info with failed_node := .str node_name }
      let info ←
        match node_error with
        | .obj fs => do
          let em ← jGet (.obj fs) "message" (.str (pyStr (.obj fs)))
          let et ← jGet (.obj fs) "name" (.str "Error")
          let st ← jGet (.obj fs) "stack" .null
          pure { info with error_message := em, error_type := et, stack_trace := st }
        | v => pure { info with error_message := .str (pyStr v) }
      let hasInput ← jContains run "inputData"
      if hasInput then do
        let iv ← jIndex run "inputData"
        pure { info with input_data := iv }
      else do
        let hasSrc ← jContains run "source"
        if hasSrc then do
          let sv ← jIndex run "source"
          pure { info with input_data := sv }
        else
          pure info
    else
      processRuns info node_name rest

/-- The outer loop of `_extract_error_details` (line 46): iterate over
`runData.items()` in order.  The `break` in the source only leaves the inner
attempts loop, so scanning proceeds to the next step even after a failing
step was captured. -/
def processNodes (info : ErrorInfo) :
    List (String × JVal) → Except String ErrorInfo
  | [] => .ok info
  | (name, runsV) :: rest => do
    let runs ← jIter runsV
    let info2 ← processRuns info name runs
    processNodes info2 rest

/-- `_extract_error_details` (debugger.py lines 12-70).  The input is the
`execution_data` dict; exceptions raised by attribute/key access on
wrongly-typed fields are modelled as `Except.error`. -/
def extractErrorDetails (execution_data : List (String × JVal)) :
    Except String ErrorInfo :=
  match jLookup "data" execution_data with
  | none => .ok defaultErrorInfo
  | some dataVal => do
    let result_data ← jGet dataVal "resultData" (.obj [])
    let hasErr ← jContains result_data "error"
    let info ←
      if hasErr then do
        let top_error ← jIndex result_data "error"
        let nodeV1 ← jGet top_error "node" (.obj [])
        let fn ← jGet nodeV1 "name" (.str "Unknown Node")
        let nodeV2 ← jGet top_error "node" (.obj [])
        let nt ← jGet nodeV2 "type" (.str "Unknown")
        let em ← jGet top_error "message" (.str "No message")
        let st ← jGet top_error "stack" .null
        let hasDesc ← jContains top_error "description"
        let et ←
          if hasDesc then jIndex top_error "description"
          else pure defaultErrorInfo.error_type
        pure { defaultErrorInfo with
                 failed_node := fn, node_type := nt, error_message := em,
                 stack_trace := st, error_type := et }
      else
        pure defaultErrorInfo
    let run_data ← jGet result_data "runData" (.obj [])
    let nodes ← jItems run_data
    processNodes info nodes

/-- `_generate_recommendation` (debugger.py lines 119-141).  `.lower()` on a
non-string `error_message` raises, modelled as `Except.error`. -/
def generateRecommendation (info : ErrorInfo) : Except String String := do
  let msg ←
    match info.error_message with
    | .str s => Except.ok (String.mk (lowerChars s.toList))
    | _ => Except.error "AttributeError: lower"
  let node := pyStr info.failed_node
  let q := pySQ
  if containsStr msg "404" || containsStr msg "not found" then
    pure ("The endpoint or resource in node " ++ q ++ node ++ q ++
          " returned 404. Check the URL path or resource ID.")
  else if containsStr msg "401" || containsStr msg "unauthorized" then
    pure ("Authentication failed in node " ++ q ++ node ++ q ++
          ". Verify API credentials or tokens.")
  else if containsStr msg "timeout" then
    pure ("Node " ++ q ++ node ++ q ++
          " timed out. Consider increasing timeout or checking endpoint availability.")
  else if containsStr msg "json" || containsStr msg "parse" then
    pure ("Node " ++ q ++ node ++ q ++
          " received invalid JSON. Check the data format from the previous node.")
  else if containsStr msg "undefined" || containsStr msg "property" then
    pure ("Node " ++ q ++ node ++ q ++
          " tried to access a missing property. Check input data structure.")
  else
    pure ("Review the error in node " ++ q ++ node ++ q ++
          " and verify its configuration and input data.")

/-!  ## `ERROR_PATTERNS` and `_analyze_log_errors` (app/services/docker.py)  -/

/-- One entry of `ERROR_PATTERNS` (docker.py lines 80-146).  Every regex in
the source is an alternation of branches, each branch a sequence of literals
separated by `.*`; `branches` lists those literal sequences, lowercased
(matching is done under `re.IGNORECASE`). -/
structure ErrorPattern where
  name : String
  branches : List (List String)
  severity : String
  recommendation : String
deriving Repr

/-- Does the in-order literal sequence `parts` occur in `l`?  Models
`re.search` for a branch `a.*b.*c`: take the leftmost occurrence of each
literal after the previous one (leftmost choices are complete for pure
existence of a match). -/
def branchMatches : List Char → List (List Char) → Bool
  | _, [] => true
  | l, p :: ps =>
    match findAfter p l with
    | some rest => branchMatches rest ps
    | none => false

/-- `re.search(pattern, line, re.IGNORECASE)` for one registry entry:
some alternation branch matches the lowercased line. -/
def matchesPattern (lineLower : List Char) (p : ErrorPattern) : Bool :=
  p.branches.any fun br => branchMatches lineLower (br.map String.toList)

/-- The `connection_refused` entry of `ERROR_PATTERNS`. -/
def pConnRefused : ErrorPattern :=
  { name := "connection_refused"
    branches := [["connection refused"], ["econnrefused"], ["connect econnrefused"]]
    severity := "high"
    recommendation := "Service dependency not reachable. Check if the target service is running and network is configured correctly." }

/-- The `permission_denied` entry of `ERROR_PATTERNS`. -/
def pPermDenied : ErrorPattern :=
  { name := "permission_denied"
    branches := [["permission denied"], ["eacces"], ["access denied"]]
    severity := "high"
    recommendation := "File or directory permission issue. Check volume mounts and file ownership." }

/-- The `out_of_memory` entry of `ERROR_PATTERNS`. -/
def pOutOfMemory : ErrorPattern :=
  { name := "out_of_memory"
    branches := [["out of memory"], ["oom"], ["killed"], ["cannot allocate memory"]]
    severity := "critical"
    recommendation := "Container ran out of memory. Increase memory limits or optimize application memory usage." }

/-- The `port_in_use` entry of `ERROR_PATTERNS`. -/
def pPortInUse : ErrorPattern :=
  { name := "port_in_use"
    branches := [["address already in use"], ["eaddrinuse"], ["port", "already", "allocated"]]
    severity := "high"
    recommendation := "Port conflict. Another process is using the same port. Change port mapping or stop the conflicting process." }

/-- The `database_connection` entry of `ERROR_PATTERNS`. -/
def pDatabase : ErrorPattern :=
  { name := "database_connection"
    branches := [["database", "connection"], ["enotfound", "postgres"], ["mysql", "denied"], ["mongodb", "failed"]]
    severity := "high"
    recommendation := "Database connection failed. Verify database credentials, host, and port configuration." }

/-- The `api_error` entry of `ERROR_PATTERNS`. -/
def pApiError : ErrorPattern :=
  { name := "api_error"
    branches := [["401"], ["403"], ["unauthorized"], ["forbidden"], ["invalid", "token"], ["authentication", "failed"]]
    severity := "medium"
    recommendation := "API authentication error. Check API keys, tokens, or credentials." }

/-- The `timeout` entry of `ERROR_PATTERNS`. -/
def pTimeout : ErrorPattern :=
  { name := "timeout"
    branches := [["timeout"], ["etimedout"], ["timed out"], ["context deadline exceeded"]]
    severity := "medium"
    recommendation := "Operation timed out. Check network connectivity or increase timeout limits." }

/-- The `file_not_found` entry of `ERROR_PATTERNS`. -/
def pFileNotFound : ErrorPattern :=
  { name := "file_not_found"
    branches := [["no such file"], ["enoent"], ["not found"], ["file not found"], ["module not found"]]
    severity := "medium"
    recommendation := "Missing file or module. Check volume mounts, paths, and dependencies." }

/-- The `syntax_error` entry of `ERROR_PATTERNS`. -/
def pSyntaxErr : ErrorPattern :=
  { name := "syntax_error"
    branches := [["syntax error"], ["syntaxerror"], ["parse error"], ["unexpected token"]]
    severity := "high"
    recommendation := "Code syntax error. Review recent code changes for syntax issues." }

/-- The `configuration_error` entry of `ERROR_PATTERNS`. -/
def pConfigError : ErrorPattern :=
  { name := "configuration_error"
    branches := [["invalid", "config"], ["configuration", "error"], ["env", "not", "set"], ["missing", "environment"]]
    severity := "medium"
    recommendation := "Configuration or environment variable issue. Check .env file and docker-compose.yml." }

/-- The `ssl_certificate` entry of `ERROR_PATTERNS`. -/
def pSslCert : ErrorPattern :=
  { name := "ssl_certificate"
    branches := [["ssl"], ["certificate"], ["x509"], ["tls"], ["self-signed"]]
    severity := "medium"
    recommendation := "SSL/TLS certificate issue. Check certificate validity or disable SSL verification for development." }

/-- The `dns_resolution` entry of `ERROR_PATTERNS`. -/
def pDnsResolution : ErrorPattern :=
  { name := "dns_resolution"
    branches := [["getaddrinfo"], ["eai_again"], ["dns"], ["name resolution"], ["could not resolve"]]
    severity := "medium"
    recommendation := "DNS resolution failed. Check network configuration and container DNS settings." }

/-- The `crash_restart` entry of `ERROR_PATTERNS`. -/
def pCrashRestart : ErrorPattern :=
  { name := "crash_restart"
    branches := [["exited with code"], ["fatal"], ["panic"], ["segfault"], ["core dumped"]]
    severity := "critical"
    recommendation := "Container crashed. Check application logs for the root cause before restart." }

/-- `ERROR_PATTERNS` (docker.py lines 80-146), in declaration order.  Python
dicts iterate in insertion order, so this order is the matching order. -/
def ERROR_PATTERNS : List ErrorPattern :=
  [pConnRefused, pPermDenied, pOutOfMemory, pPortInUse, pDatabase, pApiError,
   pTimeout, pFileNotFound, pSyntaxErr, pConfigError, pSslCert, pDnsResolution,
   pCrashRestart]

/-- The generic error indicators gating the classifier
(docker.py lines 162-165). -/
def errorIndicators : List String :=
  ["error", "err", "fatal", "critical", "exception",
   "failed", "failure", "denied", "refused", "timeout"]

/-- `any(indicator in line_lower for indicator in [...])` (docker.py 162). -/
def hasErrorIndicator (lineLower : List Char) : Bool :=
  errorIndicators.any fun ind => containsLit lineLower ind.toList

/-- First registry entry whose regex matches the line
(docker.py lines 171-180, first match wins via `break`). -/
def findFirstPattern (lineLower : List Char) : List ErrorPattern → Option ErrorPattern
  | [] => none
  | p :: ps => if matchesPattern lineLower p then some p else findFirstPattern lineLower ps

/-- One detected error record (the dict appended in docker.py
lines 173-190). -/
structure Finding where
  line_number : Nat
  error_type : String
  severity : String
  log_line : String
  recommendation : String
deriving Repr, DecidableEq

/-- The per-line body of `_analyze_log_errors` (docker.py lines 154-190):
skip blank lines, gate on generic error indicators, then first matching
registry entry wins; an indicator line matching no pattern yields the generic
low-severity finding. -/
def classifyLine (line_num : Nat) (line : List Char) : Option Finding :=
  let lower := lowerChars line
  if (pyStrip line).isEmpty then none
  else if !hasErrorIndicator lower then none
  else
    match findFirstPattern lower ERROR_PATTERNS with
    | some p =>
      some { line_number := line_num, error_type := p.name, severity := p.severity,
             log_line := String.mk ((pyStrip line).take 200),
             recommendation := p.recommendation }
    | none =>
      some { line_number := line_num, error_type := "generic_error", severity := "low",
             log_line := String.mk ((pyStrip line).take 200),
             recommendation := "Review this error line for more context." }

/-- `_analyze_log_errors` (docker.py lines 149-192). -/
def analyzeLogErrors (logs : String) : List Finding :=
  (enumLines 1 (pyLines logs)).filterMap fun p => classifyLine p.1 p.2

/-!  ## `diagnose_container_errors` (docker.py lines 301-388)

The Docker SDK is an external collaborator; the container attributes the
function reads (`container.status`, `attrs["State"]["ExitCode"]`,
`attrs["State"]["OOMKilled"]`, `attrs["RestartCount"]`) and the fetched log
text are inputs to the embedded function.  The `.get(...)` defaults of the
source are folded into the fields: `exit_code` uses `.get("ExitCode")`
(default `None`), hence `Option Int`; `oom_killed` defaults to `False`;
`restart_count` defaults to `0`. -/

structure DContainer where
  name : String
  id : String
  status : String
  image : String
  restart_count : Nat
  exit_code : Option Int
  oom_killed : Bool
deriving Repr, DecidableEq

/-- Python truthiness test `exit_code and exit_code != 0`
(docker.py line 356): `None` and `0` are falsy. -/
def exitTruthy : Option Int → Bool
  | none => false
  | some n => n != 0

/-- The `analysis` sub-dict of the diagnosis (docker.py lines 370-376). -/
structure DiagAnalysis where
  total_errors_found : Nat
  critical : Nat
  high : Nat
  medium : Nat
  low : Nat
deriving Repr, DecidableEq

/-- The truncated `errors` sub-dict (docker.py lines 378-383). -/
structure DiagErrors where
  critical : List Finding
  high : List Finding
  medium : List Finding
  low : List Finding
deriving Repr, DecidableEq

/-- The diagnosis built by `diagnose_container_errors`
(docker.py lines 367-385). -/
structure Diagnosis where
  container : DContainer
  analysis : DiagAnalysis
  priority_issue : Option String
  errors : DiagErrors
  raw_log_sample : String
deriving Repr, DecidableEq

/-- `logs[-2000:] if len(logs) > 2000 else logs` (docker.py line 384). -/
def rawLogSample (logs : String) : String :=
  let l := logs.toList
  if l.length > 2000 then String.mk (l.drop (l.length - 2000)) else logs

/-- The pure core of `diagnose_container_errors` (docker.py lines 344-385):
classify the fetched logs, bucket by severity, and pick `priority_issue` by
the fixed precedence chain of lines 354-365. -/
def diagnoseContainerErrors (c : DContainer) (logs : String) : Diagnosis :=
  let detected_errors := analyzeLogErrors logs
  let critical_errors := detected_errors.filter fun e => e.severity == "critical"
  let high_errors := detected_errors.filter fun e => e.severity == "high"
  let medium_errors := detected_errors.filter fun e => e.severity == "medium"
  let low_errors := detected_errors.filter fun e => e.severity == "low"
  let priority_issue : Option String :=
    if c.oom_killed then
      some "Container was killed due to Out of Memory. Consider increasing memory limits."
    else if exitTruthy c.exit_code then
      some ("Container exited with error code " ++
            (match c.exit_code with | some n => toString n | none => "None") ++ ".")
    else if !critical_errors.isEmpty then
      critical_errors.head?.map fun e => e.recommendation
    else if !high_errors.isEmpty then
      high_errors.head?.map fun e => e.recommendation
    else if c.status != "running" then
      some ("Container is not running (status: " ++ c.status ++ ").")
    else
      none
  { container := c
    analysis :=
      { total_errors_found := detected_errors.length
        critical := critical_errors.length
        high := high_errors.length
        medium := medium_errors.length
        low := low_errors.length }
    priority_issue := priority_issue
    errors :=
      { critical := critical_errors.take 5
        high := high_errors.take 5
        medium := medium_errors.take 3
        low := low_errors.take 2 }
    raw_log_sample := rawLogSample logs }

/-!  ## `analyze_all_container_errors` (docker.py lines 510-630)  -/

/-- Per-container inputs of the sweep.  `exit_code` here models
`attrs.get("State", {}).get("ExitCode", 0)` (default `0`, docker.py
line 547); `logs` is `some text` when `container.logs(...)` returned text
and `none` when it raised (the `except` on line 591 then skips log
analysis). -/
structure AContainer where
  name : String
  status : String
  image : String
  exit_code : Int
  oom_killed : Bool
  restart_count : Nat
  logs : Option String
deriving Repr, DecidableEq

/-- The `container_summary` dict (docker.py lines 536-540). -/
structure ContainerSummary where
  name : String
  status : String
  image : String
deriving Repr, DecidableEq

def summaryOf (c : AContainer) : ContainerSummary :=
  { name := c.name, status := c.status, image := c.image }

/-- One issue record of the sweep (docker.py lines 548-589). -/
structure Issue where
  type : String
  severity : String
  message : String
  recommendation : String
deriving Repr, DecidableEq

/-- `["low", "medium", "high", "critical"].index(severity)`
(docker.py lines 599-602).  Every severity the sweep produces is one of the
four canonical strings, so the `ValueError` branch of `.index` is
unreachable; it is mapped to `0` here. -/
def severityIndex (s : String) : Nat :=
  if s = "critical" then 3 else if s = "high" then 2
  else if s = "medium" then 1 else 0

/-- The `container_not_running` issue (docker.py lines 546-553). -/
def notRunningIssue (c : AContainer) : Issue :=
  { type := "container_not_running"
    severity := if c.exit_code != 0 then "high" else "medium"
    message := "Container is " ++ c.status ++
      (if c.exit_code != 0 then " (exit code: " ++ toString c.exit_code ++ ")" else "")
    recommendation := "Check container logs and restart if needed." }

/-- The `oom_killed` issue (docker.py lines 556-562). -/
def oomIssue : Issue :=
  { type := "oom_killed"
    severity := "critical"
    message := "Container was killed due to Out of Memory"
    recommendation := "Increase container memory limits in docker-compose.yml" }

/-- The `restart_loop` issue (docker.py lines 565-572). -/
def restartIssue (c : AContainer) : Issue :=
  { type := "restart_loop"
    severity := "high"
    message := "Container has restarted " ++ toString c.restart_count ++ " times"
    recommendation := "Container may be in a crash loop. Check application errors." }

/-- The dedup loop over the first five log findings (docker.py lines
581-590): keep the first finding per distinct `error_type`, with the log
line truncated to 100 characters. -/
def dedupLogIssues : List Finding → List String → List Issue
  | [], _ => []
  | f :: fs, seen =>
    if seen.contains f.error_type then dedupLogIssues fs seen
    else
      { type := f.error_type, severity := f.severity,
        message := String.mk (f.log_line.toList.take 100),
        recommendation := f.recommendation } :: dedupLogIssues fs (f.error_type :: seen)

/-- Log-derived issues of one container (docker.py lines 575-592): only for
`running`/`exited`/`restarting` containers, only when fetching logs did not
raise. -/
def logAnalysisIssues (c : AContainer) : List Issue :=
  if c.status = "running" || c.status = "exited" || c.status = "restarting" then
    match c.logs with
    | some logs => dedupLogIssues ((analyzeLogErrors logs).take 5) []
    | none => []
  else []

/-- All issues collected for one container, in the order the source appends
them (docker.py lines 543-592). -/
def containerIssues (c : AContainer) : List Issue :=
  (if c.status != "running" then [notRunningIssue c] else []) ++
  (if c.oom_killed then [oomIssue] else []) ++
  (if c.restart_count > 5 then [restartIssue c] else []) ++
  logAnalysisIssues c

/-- One element of `all_issues` (docker.py lines 594-603).  `max_severity`
is `max(index(sev) for sev in issues)`; over a nonempty list of naturals the
Python `max` equals this `foldl max 0`. -/
structure IssueEntry where
  container : ContainerSummary
  issues : List Issue
  issue_count : Nat
  max_severity : Nat
deriving Repr, DecidableEq

def maxSeverity (issues : List Issue) : Nat :=
  (issues.map fun i => severityIndex i.severity).foldl max 0

/-- The unsorted `all_issues` list, in container scan order. -/
def issueEntries (cs : List AContainer) : List IssueEntry :=
  cs.filterMap fun c =>
    let issues := containerIssues c
    if issues.isEmpty then none
    else some { container := summaryOf c, issues := issues,
                issue_count := issues.length, max_severity := maxSeverity issues }

/-- The `healthy_containers` list, in container scan order
(docker.py line 605). -/
def healthyContainers (cs : List AContainer) : List ContainerSummary :=
  cs.filterMap fun c =>
    if (containerIssues c).isEmpty then some (summaryOf c) else none

/-- Stable insertion into a descending-by-key list: `x` is placed before the
first element whose key is not greater, so an element keeps its place ahead
of later equal-key elements. -/
def insertByKeyDesc (key : α → Nat) (x : α) : List α → List α
  | [] => [x]
  | y :: ys => if key x < key y then y :: insertByKeyDesc key x ys else x :: y :: ys

/-- Stable descending sort by a key.  `list.sort(key=..., reverse=True)` in
Python is exactly the stable descending-by-key reordering, and the stable
descending reordering of a list is unique, so this insertion sort computes
the same list as the source's Timsort. -/
def sortByKeyDesc (key : α → Nat) : List α → List α
  | [] => []
  | x :: xs => insertByKeyDesc key x (sortByKeyDesc key xs)

/-- The `summary` dict of the sweep result (docker.py lines 616-622). -/
structure SweepSummary where
  total_containers : Nat
  containers_with_issues : Nat
  healthy_containers : Nat
  total_issues : Nat
  critical_containers : Nat
deriving Repr, DecidableEq

/-- The consolidated sweep report (docker.py lines 614-627).  The local
`healthy_containers` list is always computed; `include_healthy` only decides
whether it is serialized, so it is kept unconditionally here. -/
structure SweepReport where
  summary : SweepSummary
  containers_with_issues : List IssueEntry
  healthy : List ContainerSummary
deriving Repr, DecidableEq

/-- The pure core of `analyze_all_container_errors`
(docker.py lines 529-627). -/
def analyzeAllContainerErrors (cs : List AContainer) : SweepReport :=
  let all_issues := sortByKeyDesc (fun e => e.max_severity) (issueEntries cs)
  let healthy := healthyContainers cs
  { summary :=
      { total_containers := cs.length
        containers_with_issues := all_issues.length
        healthy_containers := healthy.length
        total_issues := (all_issues.map fun e => e.issue_count).sum
        critical_containers := (all_issues.filter fun e => e.max_severity ≥ 3).length }
    containers_with_issues := all_issues
    healthy := healthy }

/-!  ## Basic lemmas about the string model  -/

theorem litAt_iff (pat : List Char) : ∀ l : List Char,
    litAt pat l = true ↔ ∃ t, l = pat ++ t := by
  induction pat with
  | nil =>
    intro l
    simp [litAt]
  | cons p ps ih =>
    intro l
    cases l with
    | nil =>
      simp [litAt]
    | cons c cs =>
      simp only [litAt, Bool.and_eq_true, beq_iff_eq, ih]
      constructor
      · rintro ⟨rfl, t, rfl⟩
        exact ⟨t, rfl⟩
      · rintro ⟨t, h⟩
        cases h
        exact ⟨rfl, t, rfl⟩

theorem containsLit_iff (pat : List Char) : ∀ l : List Char,
    containsLit l pat = true ↔ ∃ s t, l = s ++ pat ++ t := by
  intro l
  induction l with
  | nil =>
    simp only [containsLit, findAfter]
    constructor
    · intro h
      have hlit : litAt pat [] = true := by
        by_contra hc
        simp [hc] at h
      obtain ⟨t, ht⟩ := (litAt_iff pat []).mp hlit
      exact ⟨[], t, by simpa using ht⟩
    · rintro ⟨s, t, h⟩
      have hs : s = [] := by
        cases s with
        | nil => rfl
        | cons a as => simp at h
      subst hs
      have hp : pat = [] := by
        cases pat with
        | nil => rfl
        | cons a as => simp at h
      subst hp
      simp [litAt]
  | cons c cs ih =>
    simp only [containsLit, findAfter]
    constructor
    · intro h
      by_cases hlit : litAt pat (c :: cs) = true
      · obtain ⟨t, ht⟩ := (litAt_iff pat (c :: cs)).mp hlit
        exact ⟨[], t, by simpa using ht⟩
      · simp only [hlit, Bool.false_eq_true, if_false] at h
        obtain ⟨s, t, hst⟩ := ih.mp h
        exact ⟨c :: s, t, by simp [hst]⟩
    · rintro ⟨s, t, h⟩
      by_cases hlit : litAt pat (c :: cs) = true
      · simp [hlit]
      · simp only [hlit, Bool.false_eq_true, if_false]
        cases s with
        | nil =>
          exact absurd ((litAt_iff pat (c :: cs)).mpr ⟨t, by simpa using h⟩) hlit
        | cons a as =>
          simp only [List.cons_append, List.cons.injEq] at h
          exact ih.mpr ⟨as, t, h.2⟩

/-- Containment is transitive through a sub-literal: if `p1` occurs in `l`
and `p2` occurs in `p1`, then `p2` occurs in `l`. -/
theorem containsLit_of_sub {l p1 p2 : List Char}
    (h1 : containsLit l p1 = true) (h2 : containsLit p1 p2 = true) :
    containsLit l p2 = true := by
  obtain ⟨s, t, rfl⟩ := (containsLit_iff p1 l).mp h1
  obtain ⟨u, v, rfl⟩ := (containsLit_iff p2 p1).mp h2
  exact (containsLit_iff p2 _).mpr ⟨s ++ u, v ++ t, by simp⟩

theorem mem_of_containsLit {l pat : List Char} {c : Char}
    (h : containsLit l pat = true) (hm : c ∈ pat) : c ∈ l := by
  obtain ⟨s, t, rfl⟩ := (containsLit_iff pat l).mp h
  simp [hm]

theorem takeWhile_mem_prop {p : α → Bool} {c : α} : ∀ {l : List α},
    c ∈ l.takeWhile p → p c = true := by
  intro l
  induction l with
  | nil => simp
  | cons x xs ih =>
    by_cases hx : p x = true
    · rw [List.takeWhile_cons_of_pos hx]
      intro h
      rcases List.mem_cons.mp h with h | h
      · exact h ▸ hx
      · exact ih h
    · rw [List.takeWhile_cons_of_neg (by simpa using hx)]
      simp

theorem dropWhile_nil_all {p : α → Bool} : ∀ {l : List α},
    l.dropWhile p = [] → ∀ c ∈ l, p c = true := by
  intro l
  induction l with
  | nil => simp
  | cons x xs ih =>
    intro h c hc
    by_cases hx : p x = true
    · rw [List.dropWhile_cons_of_pos hx] at h
      rcases List.mem_cons.mp hc with hcx | hcs
      · exact hcx ▸ hx
      · exact ih h c hcs
    · rw [List.dropWhile_cons_of_neg (by simpa using hx)] at h
      simp at h

/-- A string whose `strip()` is empty is all-whitespace. -/
theorem pyStrip_nil_all_space {l : List Char} (h : pyStrip l = []) :
    ∀ c ∈ l, pyIsSpace c = true := by
  unfold pyStrip at h
  rw [List.reverse_eq_nil_iff] at h
  have hrev := dropWhile_nil_all h
  have hdrop : ∀ c ∈ l.dropWhile pyIsSpace, pyIsSpace c = true := by
    intro c hc
    exact hrev c (List.mem_reverse.mpr hc)
  intro c hc
  rw [← List.takeWhile_append_dropWhile (p := pyIsSpace) (l := l)] at hc
  rcases List.mem_append.mp hc with hc | hc
  · exact takeWhile_mem_prop hc
  · exact hdrop c hc

/-- `str.lower()` fixes whitespace characters. -/
theorem pyLowerChar_of_space {c : Char} (h : pyIsSpace c = true) :
    pyLowerChar c = c := by
  simp only [pyIsSpace, Bool.or_eq_true, beq_iff_eq] at h
  rcases h with ((((h | h) | h) | h) | h) | h <;> subst h <;> decide

theorem lowerChars_of_all_space {l : List Char}
    (h : ∀ c ∈ l, pyIsSpace c = true) : lowerChars l = l := by
  unfold lowerChars
  induction l with
  | nil => rfl
  | cons c cs ih =>
    simp only [List.map_cons, List.cons.injEq]
    exact ⟨pyLowerChar_of_space (h c (by simp)),
           ih fun x hx => h x (List.mem_cons_of_mem _ hx)⟩

/-- A line whose lowercase form contains a literal with a non-whitespace
character does not strip to the empty string. -/
theorem notBlank_of_containsLower {l pat : List Char} {c : Char}
    (hm : c ∈ pat) (hs : pyIsSpace c = false)
    (hc : containsLit (lowerChars l) pat = true) :
    (pyStrip l).isEmpty = false := by
  by_contra h
  have hnil : pyStrip l = [] := by
    rcases Bool.eq_false_or_eq_true (pyStrip l).isEmpty with hb | hb
    · exact List.isEmpty_iff.mp hb
    · exact absurd hb h
  have hall := pyStrip_nil_all_space hnil
  rw [lowerChars_of_all_space hall] at hc
  have := hall c (mem_of_containsLit hc hm)
  rw [hs] at this
  exact Bool.false_ne_true this

/-!  ## Lemmas about the Line Classifier  -/

theorem branchMatches_single (l p : List Char) :
    branchMatches l [p] = containsLit l p := by
  unfold branchMatches containsLit
  cases h : findAfter p l <;> simp [h, branchMatches]

theorem findFirstPattern_cons_pos {l : List Char} {p : ErrorPattern}
    {ps : List ErrorPattern} (h : matchesPattern l p = true) :
    findFirstPattern l (p :: ps) = some p := by
  simp [findFirstPattern, h]

theorem findFirstPattern_cons_neg {l : List Char} {p : ErrorPattern}
    {ps : List ErrorPattern} (h : matchesPattern l p = false) :
    findFirstPattern l (p :: ps) = findFirstPattern l ps := by
  simp [findFirstPattern, h]

theorem matchesPattern_of_branch {l : List Char} {p : ErrorPattern}
    {b : List String} (hb : b ∈ p.branches)
    (h : branchMatches l (b.map String.toList) = true) :
    matchesPattern l p = true := by
  unfold matchesPattern
  exact List.any_eq_true.mpr ⟨b, hb, h⟩

theorem matchesPattern_eq_false {l : List Char} {p : ErrorPattern}
    (h : ∀ br ∈ p.branches, branchMatches l (br.map String.toList) = false) :
    matchesPattern l p = false := by
  unfold matchesPattern
  rw [List.any_eq_false]
  intro br hbr
  rw [h br hbr]
  exact Bool.false_ne_true

/-- A non-blank indicator line is classified by the first matching registry
entry. -/
theorem classifyLine_of_found (n : Nat) (line : List Char) (p : ErrorPattern)
    (hblank : (pyStrip line).isEmpty = false)
    (hind : hasErrorIndicator (lowerChars line) = true)
    (hfind : findFirstPattern (lowerChars line) ERROR_PATTERNS = some p) :
    classifyLine n line =
      some { line_number := n, error_type := p.name, severity := p.severity,
             log_line := String.mk ((pyStrip line).take 200),
             recommendation := p.recommendation } := by
  simp [classifyLine, hblank, hind, hfind]

theorem mem_enumLines : ∀ (ls : List (List Char)) (n i : Nat) (l : List Char),
    ls[i]? = some l → (n + i, l) ∈ enumLines n ls := by
  intro ls
  induction ls with
  | nil => intro n i l h; simp at h
  | cons x xs ih =>
    intro n i l h
    cases i with
    | zero =>
      simp only [List.getElem?_cons_zero, Option.some.injEq] at h
      subst h
      exact List.mem_cons_self _ _
    | succ i =>
      simp only [List.getElem?_cons_succ] at h
      have heq : n + (i + 1) = (n + 1) + i := by omega
      rw [heq]
      exact List.mem_cons_of_mem _ (ih (n + 1) i l h)

/-- A line classified to a finding contributes that finding (with its
1-based line number) to the classifier output. -/
theorem mem_analyzeLogErrors {logs : String} {i : Nat} {line : List Char}
    {f : Finding} (hline : (pyLines logs)[i]? = some line)
    (hcl : classifyLine (i + 1) line = some f) :
    f ∈ analyzeLogErrors logs := by
  unfold analyzeLogErrors
  refine List.mem_filterMap.mpr ⟨(1 + i, line), mem_enumLines _ 1 i line hline, ?_⟩
  rw [Nat.add_comm 1 i]
  exact hcl

/-- C7: for every input text containing a line whose lowercase form contains
"connection refused", `_analyze_log_errors` returns for that line a Finding
with severity `high` and error type `connection_refused`: the line passes
the indicator gate (it contains "refused") and the connection-refused entry
is the first registry entry tried, so it wins. -/
theorem C7_connection_refused_high (logs : String) (i : Nat) (line : List Char)
    (hline : (pyLines logs)[i]? = some line)
    (hc : containsLit (lowerChars line) ("connection refused".toList) = true) :
    ∃ f ∈ analyzeLogErrors logs,
      f.line_number = i + 1 ∧ f.severity = "high" ∧
      f.error_type = "connection_refused" := by
  have hblank : (pyStrip line).isEmpty = false :=
    notBlank_of_containsLower (c := 'c') (by decide) (by decide) hc
  have hrefused : containsLit (lowerChars line) ("refused".toList) = true :=
    containsLit_of_sub hc (by decide)
  have hind : hasErrorIndicator (lowerChars line) = true := by
    unfold hasErrorIndicator
    exact List.any_eq_true.mpr ⟨"refused", by decide, hrefused⟩
  have hm1 : matchesPattern (lowerChars line) pConnRefused = true := by
    refine matchesPattern_of_branch (b := ["connection refused"]) (by decide) ?_
    rw [List.map_cons, List.map_nil, branchMatches_single]
    exact hc
  have hfind : findFirstPattern (lowerChars line) ERROR_PATTERNS = some pConnRefused := by
    unfold ERROR_PATTERNS
    exact findFirstPattern_cons_pos hm1
  exact ⟨_, mem_analyzeLogErrors hline
      (classifyLine_of_found (i + 1) line pConnRefused hblank hind hfind),
    rfl, rfl, rfl⟩

/-- Witness for C7 on the concrete log line
"2024-01-01 ERROR: connection refused to db:5432". -/
theorem C7_witness :
    (pyLines "2024-01-01 ERROR: connection refused to db:5432")[0]? =
      some ("2024-01-01 ERROR: connection refused to db:5432".toList) ∧
    ∃ f ∈ analyzeLogErrors "2024-01-01 ERROR: connection refused to db:5432",
      f.line_number = 0 + 1 ∧ f.severity = "high" ∧
      f.error_type = "connection_refused" :=
  ⟨by decide,
   C7_connection_refused_high "2024-01-01 ERROR: connection refused to db:5432" 0
     ("2024-01-01 ERROR: connection refused to db:5432".toList)
     (by decide) (by decide)⟩

/-- C3 counterexample: the line "process killed" contains "killed" (so the
claim demands a critical Finding for it), yet it contains none of the
generic error indicators, so `_analyze_log_errors` skips it entirely and
returns no Finding at all. -/
theorem C3_cex :
    containsLit (lowerChars ("process killed".toList)) ("killed".toList) = true ∧
    analyzeLogErrors "process killed" = [] :=
  ⟨by decide, by decide⟩

/-- C3 (amended): a line containing "out of memory", "oom" or "killed"
(lowercased) gets a critical `out_of_memory` Finding provided it also
contains a generic error indicator (otherwise the gate drops the line and
nothing is emitted) and none of the two earlier registry entries
(connection-refused, permission-denied) matches it first. -/
theorem C3_oom_critical_gated (logs : String) (i : Nat) (line : List Char)
    (hline : (pyLines logs)[i]? = some line)
    (hind : hasErrorIndicator (lowerChars line) = true)
    (hoom : containsLit (lowerChars line) ("out of memory".toList) = true ∨
            containsLit (lowerChars line) ("oom".toList) = true ∨
            containsLit (lowerChars line) ("killed".toList) = true)
    (hnc1 : containsLit (lowerChars line) ("connection refused".toList) = false)
    (hnc2 : containsLit (lowerChars line) ("econnrefused".toList) = false)
    (hnp1 : containsLit (lowerChars line) ("permission denied".toList) = false)
    (hnp2 : containsLit (lowerChars line) ("eacces".toList) = false)
    (hnp3 : containsLit (lowerChars line) ("access denied".toList) = false) :
    ∃ f ∈ analyzeLogErrors logs,
      f.line_number = i + 1 ∧ f.severity = "critical" ∧
      f.error_type = "out_of_memory" := by
  have hblank : (pyStrip line).isEmpty = false := by
    rcases hoom with h | h | h
    · exact notBlank_of_containsLower (c := 'o') (by decide) (by decide) h
    · exact notBlank_of_containsLower (c := 'o') (by decide) (by decide) h
    · exact notBlank_of_containsLower (c := 'k') (by decide) (by decide) h
  have hcc : containsLit (lowerChars line) ("connect econnrefused".toList) = false := by
    cases hx : containsLit (lowerChars line) ("connect econnrefused".toList) with
    | false => rfl
    | true =>
      have h2 : containsLit (lowerChars line) ("econnrefused".toList) = true :=
        containsLit_of_sub hx (by decide)
      rw [hnc2] at h2
      exact absurd h2 Bool.false_ne_true
  have hm1 : matchesPattern (lowerChars line) pConnRefused = false := by
    apply matchesPattern_eq_false
    intro br hbr
    fin_cases hbr <;> rw [List.map_cons, List.map_nil, branchMatches_single]
    · exact hnc1
    · exact hnc2
    · exact hcc
  have hm2 : matchesPattern (lowerChars line) pPermDenied = false := by
    apply matchesPattern_eq_false
    intro br hbr
    fin_cases hbr <;> rw [List.map_cons, List.map_nil, branchMatches_single]
    · exact hnp1
    · exact hnp2
    · exact hnp3
  have hm3 : matchesPattern (lowerChars line) pOutOfMemory = true := by
    rcases hoom with h | h | h
    · refine matchesPattern_of_branch (b := ["out of memory"]) (by decide) ?_
      rw [List.map_cons, List.map_nil, branchMatches_single]
      exact h
    · refine matchesPattern_of_branch (b := ["oom"]) (by decide) ?_
      rw [List.map_cons, List.map_nil, branchMatches_single]
      exact h
    · refine matchesPattern_of_branch (b := ["killed"]) (by decide) ?_
      rw [List.map_cons, List.map_nil, branchMatches_single]
      exact h
  have hfind : findFirstPattern (lowerChars line) ERROR_PATTERNS = some pOutOfMemory := by
    unfold ERROR_PATTERNS
    rw [findFirstPattern_cons_neg hm1, findFirstPattern_cons_neg hm2]
    exact findFirstPattern_cons_pos hm3
  exact ⟨_, mem_analyzeLogErrors hline
      (classifyLine_of_found (i + 1) line pOutOfMemory hblank hind hfind),
    rfl, rfl, rfl⟩

/-- Witness for the amended C3 on the concrete line "error: out of memory". -/
theorem C3_witness :
    (pyLines "error: out of memory")[0]? = some ("error: out of memory".toList) ∧
    hasErrorIndicator (lowerChars ("error: out of memory".toList)) = true ∧
    ∃ f ∈ analyzeLogErrors "error: out of memory",
      f.line_number = 0 + 1 ∧ f.severity = "critical" ∧
      f.error_type = "out_of_memory" :=
  ⟨by decide, by decide,
   C3_oom_critical_gated "error: out of memory" 0 ("error: out of memory".toList)
     (by decide) (by decide) (Or.inl (by decide)) (by decide) (by decide)
     (by decide) (by decide) (by decide)⟩

/-!  ## Claims C5 and C6: the single-subject report builder  -/

theorem findFirstPattern_mem : ∀ {l : List Char} {ps : List ErrorPattern}
    {p : ErrorPattern}, findFirstPattern l ps = some p → p ∈ ps := by
  intro l ps
  induction ps with
  | nil => intro p h; simp [findFirstPattern] at h
  | cons q qs ih =>
    intro p h
    unfold findFirstPattern at h
    split at h
    · exact (Option.some.injEq _ _ ▸ h) ▸ List.mem_cons_self _ _
    · exact List.mem_cons_of_mem _ (ih h)

/-- Every finding emitted by `classifyLine` carries either the severity of
some registry entry or the generic severity "low". -/
theorem classifyLine_severity {n : Nat} {line : List Char} {f : Finding}
    (h : classifyLine n line = some f) :
    f.severity = "low" ∨ ∃ p ∈ ERROR_PATTERNS, f.severity = p.severity := by
  unfold classifyLine at h
  split at h
  · exact absurd h (by simp)
  · dsimp only at h
    split at h
    · exact absurd h (by simp)
    · split at h
      next p hp =>
        have hf := Option.some.inj h
        right
        exact ⟨p, findFirstPattern_mem hp, by rw [← hf]⟩
      next hp =>
        have hf := Option.some.inj h
        left
        rw [← hf]

theorem severity_canonical (logs : String) :
    ∀ f ∈ analyzeLogErrors logs,
      f.severity = "low" ∨ f.severity = "medium" ∨ f.severity = "high" ∨
      f.severity = "critical" := by
  intro f hf
  obtain ⟨a, _, hcl⟩ := List.mem_filterMap.mp hf
  rcases classifyLine_severity hcl with h | ⟨p, hp, h⟩
  · exact Or.inl h
  · have hall : ∀ q ∈ ERROR_PATTERNS, q.severity = "low" ∨ q.severity = "medium" ∨
        q.severity = "high" ∨ q.severity = "critical" := by decide
    exact h ▸ hall p hp

theorem filter_sev_cons_eq (s : String) (f : Finding) (fs : List Finding)
    (h : f.severity = s) :
    List.filter (fun e => e.severity == s) (f :: fs) =
      f :: List.filter (fun e => e.severity == s) fs := by
  simp [List.filter_cons, h]

theorem filter_sev_cons_ne (s : String) (f : Finding) (fs : List Finding)
    (h : ¬f.severity = s) :
    List.filter (fun e => e.severity == s) (f :: fs) =
      List.filter (fun e => e.severity == s) fs := by
  simp [List.filter_cons, h]

/-- Findings whose severities all lie in the four canonical levels are
partitioned by the four severity filters. -/
theorem filter_sev_partition : ∀ l : List Finding,
    (∀ f ∈ l, f.severity = "low" ∨ f.severity = "medium" ∨ f.severity = "high" ∨
      f.severity = "critical") →
    (l.filter fun e => e.severity == "critical").length +
    (l.filter fun e => e.severity == "high").length +
    (l.filter fun e => e.severity == "medium").length +
    (l.filter fun e => e.severity == "low").length = l.length := by
  intro l
  induction l with
  | nil => intro _; rfl
  | cons f fs ih =>
    intro h
    have hf := h f (List.mem_cons_self _ _)
    have hrest := fun g hg => h g (List.mem_cons_of_mem _ hg)
    have := ih hrest
    rcases hf with hs | hs | hs | hs
    · rw [filter_sev_cons_ne "critical" f fs (by rw [hs]; decide),
          filter_sev_cons_ne "high" f fs (by rw [hs]; decide),
          filter_sev_cons_ne "medium" f fs (by rw [hs]; decide),
          filter_sev_cons_eq "low" f fs hs]
      simp only [List.length_cons]
      omega
    · rw [filter_sev_cons_ne "critical" f fs (by rw [hs]; decide),
          filter_sev_cons_ne "high" f fs (by rw [hs]; decide),
          filter_sev_cons_eq "medium" f fs hs,
          filter_sev_cons_ne "low" f fs (by rw [hs]; decide)]
      simp only [List.length_cons]
      omega
    · rw [filter_sev_cons_ne "critical" f fs (by rw [hs]; decide),
          filter_sev_cons_eq "high" f fs hs,
          filter_sev_cons_ne "medium" f fs (by rw [hs]; decide),
          filter_sev_cons_ne "low" f fs (by rw [hs]; decide)]
      simp only [List.length_cons]
      omega
    · rw [filter_sev_cons_eq "critical" f fs hs,
          filter_sev_cons_ne "high" f fs (by rw [hs]; decide),
          filter_sev_cons_ne "medium" f fs (by rw [hs]; decide),
          filter_sev_cons_ne "low" f fs (by rw [hs]; decide)]
      simp only [List.length_cons]
      omega

/-- C6: in every DiagnosisReport built by `diagnose_container_errors`, every
Finding's severity is one of the four canonical levels, and the four
per-severity counts sum to `total_errors_found`, which is the number of
findings returned by the classifier. -/
theorem C6_counts_partition (c : DContainer) (logs : String) :
    (diagnoseContainerErrors c logs).analysis.critical +
      (diagnoseContainerErrors c logs).analysis.high +
      (diagnoseContainerErrors c logs).analysis.medium +
      (diagnoseContainerErrors c logs).analysis.low =
      (diagnoseContainerErrors c logs).analysis.total_errors_found ∧
    (diagnoseContainerErrors c logs).analysis.total_errors_found =
      (analyzeLogErrors logs).length ∧
    ∀ f ∈ analyzeLogErrors logs,
      f.severity = "low" ∨ f.severity = "medium" ∨ f.severity = "high" ∨
      f.severity = "critical" := by
  refine ⟨?_, rfl, severity_canonical logs⟩
  simp only [diagnoseContainerErrors]
  exact filter_sev_partition _ (severity_canonical logs)

/-- Witness for C6 on a concrete container and log text. -/
theorem C6_witness :
    ((diagnoseContainerErrors
        { name := "n8n", id := "c1", status := "running", image := "img",
          restart_count := 0, exit_code := some 0, oom_killed := false }
        "error: out of memory\nerror: timeout\nok line").analysis.critical +
      (diagnoseContainerErrors
        { name := "n8n", id := "c1", status := "running", image := "img",
          restart_count := 0, exit_code := some 0, oom_killed := false }
        "error: out of memory\nerror: timeout\nok line").analysis.high +
      (diagnoseContainerErrors
        { name := "n8n", id := "c1", status := "running", image := "img",
          restart_count := 0, exit_code := some 0, oom_killed := false }
        "error: out of memory\nerror: timeout\nok line").analysis.medium +
      (diagnoseContainerErrors
        { name := "n8n", id := "c1", status := "running", image := "img",
          restart_count := 0, exit_code := some 0, oom_killed := false }
        "error: out of memory\nerror: timeout\nok line").analysis.low =
      (diagnoseContainerErrors
        { name := "n8n", id := "c1", status := "running", image := "img",
          restart_count := 0, exit_code := some 0, oom_killed := false }
        "error: out of memory\nerror: timeout\nok line").analysis.total_errors_found) :=
  (C6_counts_partition
    { name := "n8n", id := "c1", status := "running", image := "img",
      restart_count := 0, exit_code := some 0, oom_killed := false }
    "error: out of memory\nerror: timeout\nok line").1

/-- C5: `diagnose_container_errors` determines `priority_issue` by a fixed
precedence chain, first match wins: OOM-killed metadata, then truthy nonzero
exit code, then the first critical finding's recommendation, then the first
high finding's recommendation, then non-running status, otherwise `none`.
In particular an OOM-killed subject always gets the out-of-memory message,
whatever the log findings. -/
theorem C5_priority_precedence (c : DContainer) (logs : String) :
    (c.oom_killed = true →
      (diagnoseContainerErrors c logs).priority_issue =
        some "Container was killed due to Out of Memory. Consider increasing memory limits.") ∧
    (c.oom_killed = false → ∀ n : Int, c.exit_code = some n → n ≠ 0 →
      (diagnoseContainerErrors c logs).priority_issue =
        some ("Container exited with error code " ++ toString n ++ ".")) ∧
    (c.oom_killed = false → exitTruthy c.exit_code = false →
      ∀ f, ((analyzeLogErrors logs).filter fun e => e.severity == "critical").head? = some f →
      (diagnoseContainerErrors c logs).priority_issue = some f.recommendation) ∧
    (c.oom_killed = false → exitTruthy c.exit_code = false →
      ((analyzeLogErrors logs).filter fun e => e.severity == "critical") = [] →
      ∀ f, ((analyzeLogErrors logs).filter fun e => e.severity == "high").head? = some f →
      (diagnoseContainerErrors c logs).priority_issue = some f.recommendation) ∧
    (c.oom_killed = false → exitTruthy c.exit_code = false →
      ((analyzeLogErrors logs).filter fun e => e.severity == "critical") = [] →
      ((analyzeLogErrors logs).filter fun e => e.severity == "high") = [] →
      c.status ≠ "running" →
      (diagnoseContainerErrors c logs).priority_issue =
        some ("Container is not running (status: " ++ c.status ++ ").")) ∧
    (c.oom_killed = false → exitTruthy c.exit_code = false →
      ((analyzeLogErrors logs).filter fun e => e.severity == "critical") = [] →
      ((analyzeLogErrors logs).filter fun e => e.severity == "high") = [] →
      c.status = "running" →
      (diagnoseContainerErrors c logs).priority_issue = none) := by
  refine ⟨?_, ?_, ?_, ?_, ?_, ?_⟩
  · intro h
    simp [diagnoseContainerErrors, h]
  · intro h n hn hne
    simp [diagnoseContainerErrors, h, hn, exitTruthy, hne]
  · intro h he f hf
    have hnonnil : ((analyzeLogErrors logs).filter fun e => e.severity == "critical") ≠ [] := by
      intro hnil
      rw [hnil] at hf
      exact absurd hf (by simp)
    simp [diagnoseContainerErrors, h, he, hnonnil, hf]
  · intro h he hc f hf
    have hnonnil : ((analyzeLogErrors logs).filter fun e => e.severity == "high") ≠ [] := by
      intro hnil
      rw [hnil] at hf
      exact absurd hf (by simp)
    simp [diagnoseContainerErrors, h, he, hc, hnonnil, hf]
  · intro h he hc hh hs
    simp [diagnoseContainerErrors, h, he, hc, hh, hs]
  · intro h he hc hh hs
    simp [diagnoseContainerErrors, h, he, hc, hh, hs]

/-- Witness for C5: an OOM-killed container with empty logs gets the
out-of-memory priority message; a clean running container gets `none`. -/
theorem C5_witness :
    (diagnoseContainerErrors
        { name := "a", id := "1", status := "running", image := "img",
          restart_count := 0, exit_code := some 0, oom_killed := true }
        "").priority_issue =
      some "Container was killed due to Out of Memory. Consider increasing memory limits." ∧
    (diagnoseContainerErrors
        { name := "b", id := "2", status := "running", image := "img",
          restart_count := 0, exit_code := some 0, oom_killed := false }
        "").priority_issue = none := by
  constructor
  · exact (C5_priority_precedence
      { name := "a", id := "1", status := "running", image := "img",
        restart_count := 0, exit_code := some 0, oom_killed := true } "").1 rfl
  · exact (C5_priority_precedence
      { name := "b", id := "2", status := "running", image := "img",
        restart_count := 0, exit_code := some 0, oom_killed := false }
      "").2.2.2.2.2 rfl rfl rfl rfl rfl

/-!  ## Lemmas about the stable descending sort  -/

theorem mem_insertByKeyDesc {α : Type} (key : α → Nat) (x z : α) :
    ∀ l : List α, z ∈ insertByKeyDesc key x l ↔ z = x ∨ z ∈ l := by
  intro l
  induction l with
  | nil => simp [insertByKeyDesc]
  | cons y ys ih =>
    unfold insertByKeyDesc
    by_cases hk : key x < key y
    · rw [if_pos hk]
      simp only [List.mem_cons, ih]
      tauto
    · rw [if_neg hk]
      simp only [List.mem_cons]

theorem pairwise_insertByKeyDesc {α : Type} (key : α → Nat) (x : α) :
    ∀ {l : List α}, List.Pairwise (fun a b => key b ≤ key a) l →
      List.Pairwise (fun a b => key b ≤ key a) (insertByKeyDesc key x l) := by
  intro l
  induction l with
  | nil => intro _; exact List.pairwise_singleton _ _
  | cons y ys ih =>
    intro h
    rcases List.pairwise_cons.mp h with ⟨hy, hys⟩
    unfold insertByKeyDesc
    by_cases hk : key x < key y
    · rw [if_pos hk]
      refine List.pairwise_cons.mpr ⟨?_, ih hys⟩
      intro z hz
      rcases (mem_insertByKeyDesc key x z ys).mp hz with rfl | hz'
      · omega
      · exact hy z hz'
    · rw [if_neg hk]
      refine List.pairwise_cons.mpr ⟨?_, h⟩
      intro z hz
      rcases List.mem_cons.mp hz with rfl | hz'
      · omega
      · have := hy z hz'
        omega

theorem pairwise_sortByKeyDesc {α : Type} (key : α → Nat) :
    ∀ l : List α, List.Pairwise (fun a b => key b ≤ key a) (sortByKeyDesc key l) := by
  intro l
  induction l with
  | nil => exact List.Pairwise.nil
  | cons x xs ih => exact pairwise_insertByKeyDesc key x ih

theorem perm_insertByKeyDesc {α : Type} (key : α → Nat) (x : α) :
    ∀ l : List α, (insertByKeyDesc key x l).Perm (x :: l) := by
  intro l
  induction l with
  | nil => exact List.Perm.refl _
  | cons y ys ih =>
    unfold insertByKeyDesc
    by_cases hk : key x < key y
    · rw [if_pos hk]
      exact (ih.cons y).trans (List.Perm.swap x y ys)
    · rw [if_neg hk]

theorem perm_sortByKeyDesc {α : Type} (key : α → Nat) :
    ∀ l : List α, (sortByKeyDesc key l).Perm l := by
  intro l
  induction l with
  | nil => exact List.Perm.refl _
  | cons x xs ih =>
    exact (perm_insertByKeyDesc key x (sortByKeyDesc key xs)).trans (ih.cons x)

theorem filter_insertByKeyDesc_eq {α : Type} (key : α → Nat) (k : Nat) (x : α)
    (hx : key x = k) : ∀ l : List α,
    (insertByKeyDesc key x l).filter (fun a => key a == k) =
      x :: l.filter (fun a => key a == k) := by
  intro l
  induction l with
  | nil => simp [insertByKeyDesc, List.filter, hx]
  | cons y ys ih =>
    unfold insertByKeyDesc
    by_cases hk : key x < key y
    · rw [if_pos hk]
      have hy : ¬key y = k := by omega
      simp [List.filter_cons, hy, ih]
    · rw [if_neg hk]
      simp [List.filter_cons, hx]

theorem filter_insertByKeyDesc_ne {α : Type} (key : α → Nat) (k : Nat) (x : α)
    (hx : ¬key x = k) : ∀ l : List α,
    (insertByKeyDesc key x l).filter (fun a => key a == k) =
      l.filter (fun a => key a == k) := by
  have hxb : (key x == k) = false := by simpa using hx
  intro l
  induction l with
  | nil => simp [insertByKeyDesc, List.filter, hxb]
  | cons y ys ih =>
    unfold insertByKeyDesc
    by_cases hk : key x < key y
    · rw [if_pos hk]
      simp [List.filter_cons, ih]
    · rw [if_neg hk]
      simp [List.filter_cons, hx]

/-- Stability of the descending sort: for every key value, the subsequence
of elements with that key is unchanged, i.e. ties keep their original
relative order. -/
theorem filter_sortByKeyDesc {α : Type} (key : α → Nat) (k : Nat) :
    ∀ l : List α, (sortByKeyDesc key l).filter (fun a => key a == k) =
      l.filter (fun a => key a == k) := by
  intro l
  induction l with
  | nil => rfl
  | cons x xs ih =>
    by_cases hx : key x = k
    · rw [show sortByKeyDesc key (x :: xs) =
            insertByKeyDesc key x (sortByKeyDesc key xs) from rfl,
          filter_insertByKeyDesc_eq key k x hx, ih]
      simp [List.filter_cons, hx]
    · rw [show sortByKeyDesc key (x :: xs) =
            insertByKeyDesc key x (sortByKeyDesc key xs) from rfl,
          filter_insertByKeyDesc_ne key k x hx, ih]
      simp [List.filter_cons, hx]

/-!  ## Claims C2, C9, C10: the sweep orchestrator  -/

/-- Characterisation of membership in the unsorted `all_issues` list. -/
theorem mem_issueEntries {cs : List AContainer} {e : IssueEntry}
    (he : e ∈ issueEntries cs) :
    ∃ b ∈ cs, (containerIssues b).isEmpty = false ∧
      e = { container := summaryOf b, issues := containerIssues b,
            issue_count := (containerIssues b).length,
            max_severity := maxSeverity (containerIssues b) } := by
  obtain ⟨b, hb, heq⟩ := List.mem_filterMap.mp he
  dsimp only at heq
  by_cases hbe : (containerIssues b).isEmpty
  · rw [if_pos hbe] at heq
    exact absurd heq (by simp)
  · rw [if_neg hbe] at heq
    exact ⟨b, hb, Bool.eq_false_iff.mpr hbe, (Option.some.inj heq).symm⟩

theorem entries_healthy_length : ∀ cs : List AContainer,
    (issueEntries cs).length + (healthyContainers cs).length = cs.length := by
  intro cs
  induction cs with
  | nil => rfl
  | cons c cs ih =>
    by_cases hbe : (containerIssues c).isEmpty
    · simp only [issueEntries, healthyContainers, List.filterMap_cons] at *
      rw [if_pos hbe, if_pos hbe]
      simp only [List.length_cons]
      omega
    · simp only [issueEntries, healthyContainers, List.filterMap_cons] at *
      rw [if_neg hbe, if_neg hbe]
      simp only [List.length_cons]
      omega

/-- C2 counterexample: two containers A and B, scanned in that order, both
with maximum severity 1 (medium), A with one issue and B with two.  The
claimed two-key sort would put B (more issues) first; the code sorts by
`max_severity` alone and its stable sort keeps the scan order A, B. -/
theorem C2_cex :
    ((analyzeAllContainerErrors
        [ { name := "A", status := "exited", image := "img", exit_code := 0,
            oom_killed := false, restart_count := 0, logs := some "" },
          { name := "B", status := "exited", image := "img", exit_code := 0,
            oom_killed := false, restart_count := 0,
            logs := some "error: timeout occurred" } ]).containers_with_issues.map
      fun e => (e.container.name, e.max_severity, e.issue_count)) =
      [("A", 1, 1), ("B", 1, 2)] := by
  decide

/-- C2 (amended): `containers_with_issues` is ordered by maximum severity
descending only; the sort is stable, so subjects with equal maximum severity
keep their container scan order (there is no tie-break by issue count). -/
theorem C2_sorted_by_max_severity_stable (cs : List AContainer) :
    List.Pairwise (fun a b => b.max_severity ≤ a.max_severity)
      (analyzeAllContainerErrors cs).containers_with_issues ∧
    (analyzeAllContainerErrors cs).containers_with_issues.Perm (issueEntries cs) ∧
    ∀ k : Nat,
      (analyzeAllContainerErrors cs).containers_with_issues.filter
        (fun e => e.max_severity == k) =
      (issueEntries cs).filter (fun e => e.max_severity == k) := by
  refine ⟨pairwise_sortByKeyDesc _ _, perm_sortByKeyDesc _ _, fun k => ?_⟩
  exact filter_sortByKeyDesc _ k _

/-- C9: a container whose restart count exceeds 5 always gets a
`restart_loop` issue of severity high, its entry (with that issue) appears
in `containers_with_issues`, and — provided no other scanned container has
the same name/status/image summary — it is never listed among
`healthy_containers`. -/
theorem C9_restart_loop_not_healthy (cs : List AContainer) (c : AContainer)
    (hc : c ∈ cs) (hr : 5 < c.restart_count) :
    (∃ i ∈ containerIssues c, i.type = "restart_loop" ∧ i.severity = "high") ∧
    (∃ e ∈ (analyzeAllContainerErrors cs).containers_with_issues,
      e.container = summaryOf c ∧
      ∃ i ∈ e.issues, i.type = "restart_loop" ∧ i.severity = "high") ∧
    ((∀ b ∈ cs, summaryOf b = summaryOf c → b = c) →
      summaryOf c ∉ (analyzeAllContainerErrors cs).healthy) := by
  have hmem : restartIssue c ∈ containerIssues c := by
    unfold containerIssues
    rw [if_pos hr]
    refine List.mem_append.mpr (Or.inl ?_)
    refine List.mem_append.mpr (Or.inr ?_)
    exact List.mem_cons_self _ _
  have hne : (containerIssues c).isEmpty = false := by
    cases h : containerIssues c with
    | nil => rw [h] at hmem; cases hmem
    | cons a l => rfl
  have hentry :
      ({ container := summaryOf c, issues := containerIssues c,
         issue_count := (containerIssues c).length,
         max_severity := maxSeverity (containerIssues c) } : IssueEntry) ∈
        issueEntries cs := by
    refine List.mem_filterMap.mpr ⟨c, hc, ?_⟩
    dsimp only
    rw [if_neg (by rw [hne]; exact Bool.false_ne_true)]
  refine ⟨⟨restartIssue c, hmem, rfl, rfl⟩, ?_, ?_⟩
  · exact ⟨_, (perm_sortByKeyDesc (fun e => e.max_severity) (issueEntries cs)).mem_iff.mpr hentry,
      rfl, restartIssue c, hmem, rfl, rfl⟩
  · intro huniq hhealthy
    obtain ⟨b, hb, heq⟩ := List.mem_filterMap.mp hhealthy
    by_cases hbe : (containerIssues b).isEmpty
    · rw [if_pos hbe] at heq
      have hbc : b = c := huniq b hb (Option.some.inj heq)
      rw [hbc, hne] at hbe
      exact Bool.false_ne_true hbe
    · rw [if_neg hbe] at heq
      exact absurd heq (by simp)

/-- The concrete container exercising C9: restart count 7. -/
def c9loop : AContainer :=
  { name := "loop", status := "running", image := "img", exit_code := 0,
    oom_killed := false, restart_count := 7, logs := some "" }

/-- Witness for C9: one container with restart count 7. -/
theorem C9_witness :
    c9loop ∈ [c9loop] ∧ 5 < c9loop.restart_count ∧
    (∃ e ∈ (analyzeAllContainerErrors [c9loop]).containers_with_issues,
      e.container = summaryOf c9loop ∧
      ∃ i ∈ e.issues, i.type = "restart_loop" ∧ i.severity = "high") ∧
    summaryOf c9loop ∉ (analyzeAllContainerErrors [c9loop]).healthy := by
  have h := C9_restart_loop_not_healthy [c9loop] c9loop
    (List.mem_cons_self _ _) (by decide)
  exact ⟨List.mem_cons_self _ _, by decide, h.2.1, h.2.2 (by decide)⟩

/-- C10: every scanned container lands in exactly one of the issue list and
the healthy list: the reported totals satisfy
`total_containers = |containers_with_issues| + |healthy_containers|`, the
reported per-list counts match the lists, and every issue entry has a
non-empty issue list. -/
theorem C10_partition_totals (cs : List AContainer) :
    (analyzeAllContainerErrors cs).summary.total_containers = cs.length ∧
    (analyzeAllContainerErrors cs).summary.containers_with_issues =
      (analyzeAllContainerErrors cs).containers_with_issues.length ∧
    (analyzeAllContainerErrors cs).summary.healthy_containers =
      (analyzeAllContainerErrors cs).healthy.length ∧
    (analyzeAllContainerErrors cs).containers_with_issues.length +
      (analyzeAllContainerErrors cs).healthy.length = cs.length ∧
    ∀ e ∈ (analyzeAllContainerErrors cs).containers_with_issues, e.issues ≠ [] := by
  refine ⟨rfl, rfl, rfl, ?_, ?_⟩
  · show (sortByKeyDesc (fun e => e.max_severity) (issueEntries cs)).length +
      (healthyContainers cs).length = cs.length
    rw [(perm_sortByKeyDesc (fun e => e.max_severity) (issueEntries cs)).length_eq]
    exact entries_healthy_length cs
  · intro e he
    have he2 : e ∈ sortByKeyDesc (fun x => x.max_severity) (issueEntries cs) := he
    have he3 : e ∈ issueEntries cs :=
      (perm_sortByKeyDesc (fun x => x.max_severity) (issueEntries cs)).mem_iff.mp he2
    obtain ⟨b, _, hbe, rfl⟩ := mem_issueEntries he3
    intro hnil
    dsimp only at hnil
    rw [hnil] at hbe
    exact absurd hbe (by simp)

/-- The concrete scan list exercising C10: one exited container with a
nonzero exit code and one clean running container. -/
def c10scan : List AContainer :=
  [ { name := "bad", status := "exited", image := "img", exit_code := 1,
      oom_killed := false, restart_count := 0, logs := some "" },
    { name := "good", status := "running", image := "img", exit_code := 0,
      oom_killed := false, restart_count := 0, logs := some "" } ]

/-- Witness for C10 on a concrete two-container scan. -/
theorem C10_witness :
    (analyzeAllContainerErrors c10scan).summary.total_containers =
      (analyzeAllContainerErrors c10scan).containers_with_issues.length +
      (analyzeAllContainerErrors c10scan).healthy.length ∧
    ∀ e ∈ (analyzeAllContainerErrors c10scan).containers_with_issues,
      e.issues ≠ [] := by
  have h := C10_partition_totals c10scan
  exact ⟨by rw [h.1, ← h.2.2.2.1], h.2.2.2.2⟩

/-!  ## Claims C1, C4, C8: the Trace Diagnoser  -/

theorem exceptBind_ok {α β : Type} (a : α) (f : α → Except String β) :
    (Except.ok a : Except String α) >>= f = f a := rfl

theorem exceptBind_error {α β : Type} (e : String) (f : α → Except String β) :
    (Except.error e : Except String α) >>= f = .error e := rfl

/-- The C8 scenario trace:
`{"data":{"resultData":{"runData":{"HTTP Request":[{"error":{"message":"404 Not Found"}}]}}}}`. -/
def c8trace : List (String × JVal) :=
  [("data", .obj [("resultData", .obj [("runData", .obj
    [("HTTP Request", .arr [.obj [("error", .obj
      [("message", .str "404 Not Found")])]])])])])]

/-- C8: on the 404 trace, diagnosis reports failed node "HTTP Request" with
error message "404 Not Found", and the generated recommendation mentions
checking the URL path / resource. -/
theorem C8_http_404_end_to_end :
    ∃ info, extractErrorDetails c8trace = .ok info ∧
      info.failed_node = .str "HTTP Request" ∧
      info.error_message = .str "404 Not Found" ∧
      ∃ rec, generateRecommendation info = .ok rec ∧
        containsStr rec "Check the URL path or resource ID" = true := by
  refine ⟨{ failed_node := .str "HTTP Request", node_type := .str "Unknown",
            error_type := .str "Error", error_message := .str "404 Not Found",
            stack_trace := .null, input_data := .null },
          rfl, rfl, rfl, ?_⟩
  exact ⟨_, rfl, by decide⟩

/-- A malformed trace whose top-level `resultData.error` is a plain string:
`{"data":{"resultData":{"error":"boom"}}}`. -/
def c4trace : List (String × JVal) :=
  [("data", .obj [("resultData", .obj [("error", .str "boom")])])]

/-- C4 counterexample: diagnosis does NOT return normally for every
malformed trace.  With a string-valued top-level error object,
`top_error.get("node", {})` calls `.get` on a `str`, raising
`AttributeError` instead of defaulting. -/
theorem C4_cex :
    extractErrorDetails c4trace = .error "AttributeError: get" := rfl

/-- A step whose single run attempt carries `{"error": {"message": m,
"name": t}}`. -/
def errNodeVal (m t : String) : JVal :=
  .arr [.obj [("error", .obj [("message", .str m), ("name", .str t)])]]

/-- A trace `{"data": {"resultData": {"runData": nodes}}}`. -/
def mkTraceNodes (nodes : List (String × JVal)) : List (String × JVal) :=
  [("data", .obj [("resultData", .obj [("runData", .obj nodes)])])]

/-- C1 counterexample: a trace with error-bearing attempts under both "A"
(first) and "B" (second): the returned diagnosis comes from "B", the LATER
step, not from "A" — the `break` only leaves the inner attempts loop, so
each subsequent failing step overwrites the previous one. -/
theorem C1_cex :
    (extractErrorDetails
        (mkTraceNodes [("A", errNodeVal "m1" "E1"), ("B", errNodeVal "m2" "E2")])).map
      (fun i => i.failed_node) = .ok (.str "B") ∧
    (extractErrorDetails
        (mkTraceNodes [("A", errNodeVal "m1" "E1"), ("B", errNodeVal "m2" "E2")])).map
      (fun i => i.error_message) = .ok (.str "m2") ∧
    (extractErrorDetails
        (mkTraceNodes [("A", errNodeVal "m1" "E1"), ("B", errNodeVal "m2" "E2")])).map
      (fun i => i.error_type) = .ok (.str "E2") ∧
    ("B" : String) ≠ "A" :=
  ⟨rfl, rfl, rfl, by decide⟩

/-- Scanning a step never raises and leaves the diagnosis unchanged when no
attempt of the step carries an `error` key. -/
def runNoError (r : JVal) : Bool :=
  match jContains r "error" with
  | .ok false => true
  | _ => false

def cleanNode (p : String × JVal) : Bool :=
  match jIter p.2 with
  | .ok runs => runs.all runNoError
  | .error _ => false

def cleanNodes (l : List (String × JVal)) : Bool := l.all cleanNode

theorem processRuns_clean (info : ErrorInfo) (name : String) :
    ∀ runs : List JVal, runs.all runNoError = true →
      processRuns info name runs = .ok info := by
  intro runs
  induction runs with
  | nil => intro _; rfl
  | cons run rest ih =>
    intro hall
    have hrun : runNoError run = true :=
      List.all_eq_true.mp hall run (List.mem_cons_self _ _)
    have hrest : rest.all runNoError = true :=
      List.all_eq_true.mpr fun x hx =>
        List.all_eq_true.mp hall x (List.mem_cons_of_mem _ hx)
    unfold runNoError at hrun
    unfold processRuns
    cases hjc : jContains run "error" with
    | error e => rw [hjc] at hrun; simp at hrun
    | ok b =>
      cases b with
      | true => rw [hjc] at hrun; simp at hrun
      | false => exact ih hrest

theorem processNodes_clean (info : ErrorInfo) :
    ∀ l : List (String × JVal), cleanNodes l = true →
      processNodes info l = .ok info := by
  intro l
  induction l with
  | nil => intro _; rfl
  | cons nd rest ih =>
    intro hall
    obtain ⟨name, runsV⟩ := nd
    have hnd : cleanNode (name, runsV) = true :=
      List.all_eq_true.mp hall _ (List.mem_cons_self _ _)
    have hrest : cleanNodes rest = true :=
      List.all_eq_true.mpr fun x hx =>
        List.all_eq_true.mp hall x (List.mem_cons_of_mem _ hx)
    unfold cleanNode at hnd
    have hnd2 : (match jIter runsV with
        | Except.ok runs => runs.all runNoError
        | Except.error _ => false) = true := hnd
    unfold processNodes
    cases hit : jIter runsV with
    | error e => rw [hit] at hnd2; simp at hnd2
    | ok runs =>
      rw [hit] at hnd2
      have hall2 : runs.all runNoError = true := by simpa using hnd2
      rw [exceptBind_ok, processRuns_clean info name runs hall2, exceptBind_ok]
      exact ih hrest

theorem processNodes_append_ok {info info1 : ErrorInfo}
    {l1 l2 : List (String × JVal)} (h : processNodes info l1 = .ok info1) :
    processNodes info (l1 ++ l2) = processNodes info1 l2 := by
  induction l1 generalizing info with
  | nil =>
    have : info = info1 := Except.ok.inj h
    rw [List.nil_append, this]
  | cons nd rest ih =>
    obtain ⟨name, runsV⟩ := nd
    unfold processNodes at h
    rw [List.cons_append]
    show (do
        let runs ← jIter runsV
        let info2 ← processRuns info name runs
        processNodes info2 (rest ++ l2)) = processNodes info1 l2
    cases hit : jIter runsV with
    | error e =>
      rw [hit, exceptBind_error] at h
      cases h
    | ok runs =>
      rw [hit, exceptBind_ok] at h
      rw [exceptBind_ok]
      cases hpr : processRuns info name runs with
      | error e => rw [hpr, exceptBind_error] at h; cases h
      | ok i2 =>
        rw [hpr, exceptBind_ok] at h
        rw [exceptBind_ok]
        exact ih h

/-- Processing the error-bearing step `(name, errNodeVal m t)` overwrites
the failed node, error message, error type and stack trace, from any
starting diagnosis. -/
theorem processRuns_errNode (info : ErrorInfo) (name m t : String) :
    processRuns info name
        [.obj [("error", .obj [("message", .str m), ("name", .str t)])]] =
      .ok { info with
              failed_node := .str name, error_message := .str m,
              error_type := .str t, stack_trace := .null } := rfl

theorem extract_mkTraceNodes (nodes : List (String × JVal)) :
    extractErrorDetails (mkTraceNodes nodes) =
      processNodes defaultErrorInfo nodes := rfl

/-- C1 (amended): in a trace whose `runData` walk is
`pre ++ [(n, errNodeVal m t)] ++ post` with `post` free of error-bearing
attempts, the returned failed_node/error_message/error_type come from `n` —
the LAST error-bearing step in iteration order — whatever error-bearing
steps `pre` contains: each error-bearing step overwrites the previously
captured one; only the scan of attempts within one step stops early. -/
theorem C1_last_error_step_wins (pre post : List (String × JVal))
    (n m t : String) (info1 : ErrorInfo)
    (hpre : processNodes defaultErrorInfo pre = .ok info1)
    (hpost : cleanNodes post = true) :
    ∃ info,
      extractErrorDetails (mkTraceNodes (pre ++ (n, errNodeVal m t) :: post)) =
        .ok info ∧
      info.failed_node = .str n ∧ info.error_message = .str m ∧
      info.error_type = .str t := by
  refine ⟨{ info1 with
              failed_node := .str n, error_message := .str m,
              error_type := .str t, stack_trace := .null }, ?_, rfl, rfl, rfl⟩
  rw [extract_mkTraceNodes, processNodes_append_ok hpre]
  unfold processNodes
  rw [show jIter (errNodeVal m t) =
        .ok [.obj [("error", .obj [("message", .str m), ("name", .str t)])]] from rfl,
      exceptBind_ok, processRuns_errNode, exceptBind_ok]
  exact processNodes_clean _ post hpost

/-- Witness for the amended C1: `pre` = one failing step "A", then the
failing step "B"; the diagnosis reports "B". -/
theorem C1_witness :
    processNodes defaultErrorInfo [("A", errNodeVal "m1" "E1")] =
      .ok { failed_node := .str "A", node_type := .str "Unknown",
            error_type := .str "E1", error_message := .str "m1",
            stack_trace := .null, input_data := .null } ∧
    cleanNodes [] = true ∧
    ∃ info,
      extractErrorDetails
          (mkTraceNodes ([("A", errNodeVal "m1" "E1")] ++ ("B", errNodeVal "m2" "E2") :: [])) =
        .ok info ∧
      info.failed_node = .str "B" ∧ info.error_message = .str "m2" ∧
      info.error_type = .str "E2" :=
  ⟨rfl, rfl, C1_last_error_step_wins [("A", errNodeVal "m1" "E1")] [] "B" "m2" "E2" _ rfl rfl⟩

/-- Trace attempts of the expected shape: each run attempt record is a
mapping. -/
def wellShapedRun (run : JVal) : Bool :=
  match run with
  | .obj _ => true
  | _ => false

/-- `runData` of the expected shape: a mapping from step names to arrays of
mapping-shaped attempt records. -/
def wellShapedRunData (v : JVal) : Bool :=
  match v with
  | .obj nodes =>
    nodes.all fun p =>
      match p.2 with
      | .arr runs => runs.all wellShapedRun
      | _ => false
  | _ => false

/-- Expected shape of a present top-level `error` object: a mapping whose
`node` field, when present, is a mapping. -/
def wellShapedTopError (rd : List (String × JVal)) : Bool :=
  match jLookup "error" rd with
  | none => true
  | some (.obj te) =>
    match jLookup "node" te with
    | none => true
    | some (.obj _) => true
    | some _ => false
  | some _ => false

/-- Traces whose PRESENT fields all have the shapes the extractor expects:
`data` and `resultData` mappings when present, a well-shaped top-level
error, and `runData` a mapping of arrays of mapping attempts.  Missing keys
are always allowed — they are the defaulted cases. -/
def wellShapedTrace (ed : List (String × JVal)) : Bool :=
  match jLookup "data" ed with
  | none => true
  | some (.obj d) =>
    match jLookup "resultData" d with
    | none => true
    | some (.obj rd) =>
      wellShapedTopError rd &&
      (match jLookup "runData" rd with
       | none => true
       | some v => wellShapedRunData v)
    | some _ => false
  | some _ => false

theorem jGet_obj_ok (fs : List (String × JVal)) (k : String) (d : JVal) :
    ∃ w, jGet (.obj fs) k d = .ok w := by
  have hdef : jGet (.obj fs) k d =
      match jLookup k fs with
      | some w => Except.ok w
      | none => Except.ok d := rfl
  rw [hdef]
  cases jLookup k fs with
  | none => exact ⟨d, rfl⟩
  | some w => exact ⟨w, rfl⟩

theorem jIndex_obj_ok {fs : List (String × JVal)} {k : String}
    (h : (jLookup k fs).isSome = true) : ∃ w, jIndex (.obj fs) k = .ok w := by
  have hdef : jIndex (.obj fs) k =
      match jLookup k fs with
      | some w => Except.ok w
      | none => Except.error "KeyError" := rfl
  rw [hdef]
  cases hlk : jLookup k fs with
  | none => rw [hlk] at h; simp at h
  | some w => exact ⟨w, rfl⟩

/-- Scanning the attempts of one step never raises when every attempt is a
mapping. -/
theorem processRuns_wellShaped_ok (name : String) : ∀ runs : List JVal,
    runs.all wellShapedRun = true → ∀ info : ErrorInfo,
    ∃ info2, processRuns info name runs = .ok info2 := by
  intro runs
  induction runs with
  | nil => intro _ info; exact ⟨info, rfl⟩
  | cons run rest ih =>
    intro hall info
    have hrun : wellShapedRun run = true :=
      List.all_eq_true.mp hall run (List.mem_cons_self _ _)
    have hrest : rest.all wellShapedRun = true :=
      List.all_eq_true.mpr fun x hx =>
        List.all_eq_true.mp hall x (List.mem_cons_of_mem _ hx)
    cases run with
    | obj fs =>
      unfold processRuns
      rw [show jContains (.obj fs) "error" = .ok (jLookup "error" fs).isSome from rfl,
          exceptBind_ok]
      cases herr : (jLookup "error" fs).isSome with
      | false =>
        rw [if_neg (show ¬(false = true) from by decide)]
        exact ih hrest info
      | true =>
        rw [if_pos (show true = true from rfl)]
        obtain ⟨e, he⟩ := jIndex_obj_ok herr
        rw [he, exceptBind_ok]
        have hinput : ∀ info3 : ErrorInfo, ∃ info4,
            (do
              let hasInput ← jContains (JVal.obj fs) "inputData"
              if hasInput then do
                let iv ← jIndex (JVal.obj fs) "inputData"
                pure { info3 with input_data := iv }
              else do
                let hasSrc ← jContains (JVal.obj fs) "source"
                if hasSrc then do
                  let sv ← jIndex (JVal.obj fs) "source"
                  pure { info3 with input_data := sv }
                else
                  pure info3) = Except.ok info4 := by
          intro info3
          rw [show jContains (.obj fs) "inputData" =
                .ok (jLookup "inputData" fs).isSome from rfl, exceptBind_ok]
          cases hin : (jLookup "inputData" fs).isSome with
          | true =>
            rw [if_pos (show true = true from rfl)]
            obtain ⟨iv, hiv⟩ := jIndex_obj_ok hin
            rw [hiv, exceptBind_ok]
            exact ⟨_, rfl⟩
          | false =>
            rw [if_neg (show ¬(false = true) from by decide)]
            rw [show jContains (.obj fs) "source" =
                  .ok (jLookup "source" fs).isSome from rfl, exceptBind_ok]
            cases hsrc : (jLookup "source" fs).isSome with
            | true =>
              rw [if_pos (show true = true from rfl)]
              obtain ⟨sv, hsv⟩ := jIndex_obj_ok hsrc
              rw [hsv, exceptBind_ok]
              exact ⟨_, rfl⟩
            | false =>
              rw [if_neg (show ¬(false = true) from by decide)]
              exact ⟨_, rfl⟩
        cases e with
        | obj efs =>
          obtain ⟨em, hem⟩ := jGet_obj_ok efs "message" (.str (pyStr (.obj efs)))
          obtain ⟨et, het⟩ := jGet_obj_ok efs "name" (.str "Error")
          obtain ⟨st, hst⟩ := jGet_obj_ok efs "stack" .null
          dsimp only
          rw [hem, exceptBind_ok, het, exceptBind_ok, hst, exceptBind_ok]
          exact hinput _
        | null => exact hinput _
        | str s => exact hinput _
        | arr xs => exact hinput _
    | null => simp [wellShapedRun] at hrun
    | str s => simp [wellShapedRun] at hrun
    | arr xs => simp [wellShapedRun] at hrun

theorem processNodes_wellShaped_ok : ∀ nodes : List (String × JVal),
    (nodes.all fun p =>
      match p.2 with
      | .arr runs => runs.all wellShapedRun
      | _ => false) = true →
    ∀ info : ErrorInfo, ∃ info2, processNodes info nodes = .ok info2 := by
  intro nodes
  induction nodes with
  | nil => intro _ info; exact ⟨info, rfl⟩
  | cons nd rest ih =>
    intro hall info
    obtain ⟨name, runsV⟩ := nd
    have hnd := List.all_eq_true.mp hall _ (List.mem_cons_self (name, runsV) rest)
    dsimp only at hnd
    have hrest := List.all_eq_true.mpr fun x hx =>
      List.all_eq_true.mp hall x (List.mem_cons_of_mem _ hx)
    cases runsV with
    | arr runs =>
      unfold processNodes
      rw [show jIter (.arr runs) = .ok runs from rfl, exceptBind_ok]
      obtain ⟨i2, hi2⟩ := processRuns_wellShaped_ok name runs (by simpa using hnd) info
      rw [hi2, exceptBind_ok]
      exact ih hrest i2
    | obj fs => simp at hnd
    | str s => simp at hnd
    | null => simp at hnd

/-- The tail of the extractor (fetch `runData`, iterate its items) never
raises when `runData`, if present, is well shaped. -/
theorem runDataPart_ok (rd : List (String × JVal)) (info : ErrorInfo)
    (hrun : (match jLookup "runData" rd with
             | none => true
             | some v => wellShapedRunData v) = true) :
    ∃ info2,
      (do
        let run_data ← jGet (.obj rd) "runData" (.obj [])
        let nodes ← jItems run_data
        processNodes info nodes) = Except.ok info2 := by
  cases hrd : jLookup "runData" rd with
  | none =>
    rw [show jGet (.obj rd) "runData" (.obj []) =
          (match jLookup "runData" rd with
           | some w => Except.ok w
           | none => Except.ok (.obj [])) from rfl,
        hrd]
    rw [exceptBind_ok]
    exact ⟨info, rfl⟩
  | some v =>
    rw [hrd] at hrun
    have hv : wellShapedRunData v = true := hrun
    rw [show jGet (.obj rd) "runData" (.obj []) =
          (match jLookup "runData" rd with
           | some w => Except.ok w
           | none => Except.ok (.obj [])) from rfl,
        hrd]
    rw [exceptBind_ok]
    cases v with
    | obj nodes =>
      rw [show jItems (.obj nodes) = .ok nodes from rfl, exceptBind_ok]
      exact processNodes_wellShaped_ok nodes (by simpa [wellShapedRunData] using hv) info
    | null => simp [wellShapedRunData] at hv
    | str s => simp [wellShapedRunData] at hv
    | arr xs => simp [wellShapedRunData] at hv

theorem bind_ok_exists {α β : Type} {X : Except String α} {k : α → Except String β}
    (hX : ∃ a, X = .ok a) (hk : ∀ a, ∃ r, k a = .ok r) :
    ∃ r, (X >>= k) = .ok r := by
  obtain ⟨a, ha⟩ := hX
  obtain ⟨r, hr⟩ := hk a
  exact ⟨r, by rw [ha, exceptBind_ok, hr]⟩

theorem bind_ok_exists2 {α β : Type} {X : Except String α} {k : α → Except String β}
    {a : α} (hX : X = .ok a) (hk : ∃ r, k a = .ok r) :
    ∃ r, (X >>= k) = .ok r := by
  obtain ⟨r, hr⟩ := hk
  exact ⟨r, by rw [hX, exceptBind_ok, hr]⟩

/-- C4 (amended): the extractor returns normally — with "Unknown" defaults
for missing keys — for every trace whose PRESENT fields have the expected
shapes; it is wrong-typed present fields (a string-valued error object, a
null node, a non-mapping attempt) that make it raise, as `C4_cex` shows. -/
theorem C4_well_shaped_never_raises (ed : List (String × JVal))
    (h : wellShapedTrace ed = true) :
    ∃ info, extractErrorDetails ed = .ok info := by
  unfold wellShapedTrace at h
  unfold extractErrorDetails
  cases hd : jLookup "data" ed with
  | none => exact ⟨_, rfl⟩
  | some dataVal =>
    rw [hd] at h
    cases dataVal with
    | obj d =>
      try dsimp only
      cases hrd : jLookup "resultData" d with
      | none =>
        rw [show jGet (.obj d) "resultData" (.obj []) =
              (match jLookup "resultData" d with
               | some w => Except.ok w
               | none => Except.ok (.obj [])) from rfl, hrd, exceptBind_ok]
        exact ⟨_, rfl⟩
      | some rdv =>
        have h4 : (match jLookup "resultData" d with
            | none => true
            | some (JVal.obj rd) =>
              wellShapedTopError rd &&
                (match jLookup "runData" rd with
                 | none => true
                 | some v => wellShapedRunData v)
            | some _ => false) = true := h
        rw [hrd] at h4
        cases rdv with
        | obj rd =>
          have h2 : (wellShapedTopError rd &&
              (match jLookup "runData" rd with
               | none => true
               | some v => wellShapedRunData v)) = true := h4
          obtain ⟨hte, hrun⟩ := Bool.and_eq_true_iff.mp h2
          rw [show jGet (.obj d) "resultData" (.obj []) =
                (match jLookup "resultData" d with
                 | some w => Except.ok w
                 | none => Except.ok (.obj [])) from rfl, hrd, exceptBind_ok]
          try dsimp only
          rw [show jContains (.obj rd) "error" =
                .ok (jLookup "error" rd).isSome from rfl, exceptBind_ok]
          try dsimp only
          cases herr : (jLookup "error" rd).isSome with
          | false =>
            rw [if_neg (show ¬(false = true) from by decide)]
            refine bind_ok_exists2 (a := defaultErrorInfo) rfl ?_
            try dsimp only
            exact runDataPart_ok rd defaultErrorInfo hrun
          | true =>
            rw [if_pos (show true = true from rfl)]
            obtain ⟨te, hlk⟩ := Option.isSome_iff_exists.mp herr
            unfold wellShapedTopError at hte
            rw [hlk] at hte
            cases te with
            | obj tefs =>
              have hnode : (match jLookup "node" tefs with
                  | none => true
                  | some (JVal.obj _) => true
                  | some _ => false) = true := hte
              have hnodeObj : ∃ nfs,
                  jGet (.obj tefs) "node" (.obj []) = .ok (.obj nfs) := by
                cases hn : jLookup "node" tefs with
                | none =>
                  exact ⟨[], by
                    rw [show jGet (.obj tefs) "node" (.obj []) =
                          (match jLookup "node" tefs with
                           | some w => Except.ok w
                           | none => Except.ok (.obj [])) from rfl, hn]⟩
                | some nv =>
                  rw [hn] at hnode
                  cases nv with
                  | obj nfs =>
                    exact ⟨nfs, by
                      rw [show jGet (.obj tefs) "node" (.obj []) =
                            (match jLookup "node" tefs with
                             | some w => Except.ok w
                             | none => Except.ok (.obj [])) from rfl, hn]⟩
                  | null => simp at hnode
                  | str s => simp at hnode
                  | arr a => simp at hnode
              obtain ⟨nfs, hnfs⟩ := hnodeObj
              refine bind_ok_exists2 (a := JVal.obj tefs)
                (by rw [show jIndex (.obj rd) "error" =
                      (match jLookup "error" rd with
                       | some w => Except.ok w
                       | none => Except.error "KeyError") from rfl, hlk]) ?_
              try dsimp only
              refine bind_ok_exists2 (a := JVal.obj nfs) hnfs ?_
              try dsimp only
              refine bind_ok_exists (jGet_obj_ok nfs "name" (.str "Unknown Node"))
                fun fn => ?_
              try dsimp only
              refine bind_ok_exists2 (a := JVal.obj nfs) hnfs ?_
              try dsimp only
              refine bind_ok_exists (jGet_obj_ok nfs "type" (.str "Unknown"))
                fun nt => ?_
              try dsimp only
              refine bind_ok_exists (jGet_obj_ok tefs "message" (.str "No message"))
                fun em => ?_
              try dsimp only
              refine bind_ok_exists (jGet_obj_ok tefs "stack" .null) fun st => ?_
              try dsimp only
              refine bind_ok_exists2 (a := (jLookup "description" tefs).isSome) rfl ?_
              try dsimp only
              cases hdesc : (jLookup "description" tefs).isSome with
              | true =>
                rw [if_pos (show true = true from rfl)]
                obtain ⟨dv, hdv⟩ := jIndex_obj_ok hdesc
                refine bind_ok_exists2 (a := dv) hdv ?_
                try dsimp only
                refine bind_ok_exists2
                  (a := { defaultErrorInfo with
                            failed_node := fn, node_type := nt,
                            error_message := em, stack_trace := st,
                            error_type := dv }) rfl ?_
                try dsimp only
                exact runDataPart_ok rd _ hrun
              | false =>
                rw [if_neg (show ¬(false = true) from by decide)]
                refine bind_ok_exists2 (a := defaultErrorInfo.error_type) rfl ?_
                try dsimp only
                refine bind_ok_exists2
                  (a := { defaultErrorInfo with
                            failed_node := fn, node_type := nt,
                            error_message := em, stack_trace := st,
                            error_type := defaultErrorInfo.error_type }) rfl ?_
                try dsimp only
                exact runDataPart_ok rd _ hrun
            | null => simp at hte
            | str s => simp at hte
            | arr a => simp at hte
        | null => simp at h4
        | str s => simp at h4
        | arr xs => simp at h4
    | null => simp at h
    | str s => simp at h
    | arr xs => simp at h

/-- Witness for the amended C4: a well-shaped trace with a top-level error
carrying a node and description, and runData with one clean attempt. -/
theorem C4_witness :
    wellShapedTrace
      [("data", .obj [("resultData", .obj
        [("error", .obj [("node", .obj [("name", .str "Webhook")]),
                         ("message", .str "boom"),
                         ("description", .str "SomeError")]),
         ("runData", .obj [("Webhook", .arr [.obj [("ok", .str "yes")]])])])])] = true ∧
    ∃ info, extractErrorDetails
      [("data", .obj [("resultData", .obj
        [("error", .obj [("node", .obj [("name", .str "Webhook")]),
                         ("message", .str "boom"),
                         ("description", .str "SomeError")]),
         ("runData", .obj [("Webhook", .arr [.obj [("ok", .str "yes")]])])])])] = .ok info :=
  ⟨by decide,
   C4_well_shaped_never_raises
     [("data", .obj [("resultData", .obj
       [("error", .obj [("node", .obj [("name", .str "Webhook")]),
                        ("message", .str "boom"),
                        ("description", .str "SomeError")]),
        ("runData", .obj [("Webhook", .arr [.obj [("ok", .str "yes")]])])])])]
     (by decide)⟩
